import Mathlib

/-!
Shallow embedding of the IoT greenhouse backend (sensor ingestion,
device control over MQTT, health check) and proofs of its specified
properties.

Conventions of the embedding:
* The relational store is explicit state (`SensorStore`, `CommandStore`):
  a list of rows plus a counter feeding the id generator.
* Machine `Date` values are `Option Int` (epoch milliseconds); `none`
  models the JavaScript Invalid Date.  The date parsing of the environment
  (`Date.parse` / `new Date(string)`) is a parameter `parse`.
* Fallible calls return `Except`; a thrown JavaScript value is either an
  `Error` instance carrying a message or some non-`Error` value.
* JSON numbers are modelled as `Rat` (validation only compares them,
  never does float arithmetic).
-/

namespace Greenhouse

/-- Whether `needle` is a prefix of the character list. -/
def charsStartWith : List Char → List Char → Bool
  | _, [] => true
  | [], _ :: _ => false
  | c :: cs, d :: ds => c == d && charsStartWith cs ds

/-- Whether `needle` occurs anywhere in the character list. -/
def charsInclude : List Char → List Char → Bool
  | [], needle => needle.isEmpty
  | c :: rest, needle => charsStartWith (c :: rest) needle || charsInclude rest needle

/-- JavaScript `String.prototype.includes`: `true` iff `sub` occurs in `s`. -/
def jsIncludes (s sub : String) : Bool :=
  charsInclude s.data sub.data

/-- A JavaScript `Date` value: `some t` is a valid instant (epoch ms),
`none` is Invalid Date. -/
abbrev JsDate := Option Int

/-- A thrown JavaScript value, as the `catch` blocks discriminate it:
either an `Error` instance (with its `.message`) or anything else. -/
inductive JsThrown where
  | errorInstance (msg : String)
  | nonErrorValue
deriving Repr, DecidableEq

/-- Coercion `error instanceof Error ? error.message : "Unknown MQTT error"`
used by the device service when recording a publish failure. -/
def JsThrown.coercedMessage : JsThrown → String
  | .errorInstance m => m
  | .nonErrorValue => "Unknown MQTT error"

/-- Id generation for rows created by `repository.save` (opaque unique
identifiers; the counter makes freshness explicit). -/
def genId (n : Nat) : String := "uuid-" ++ toString n

/-! ## Sensor data model (entities/SensorReading.ts) -/

/-- Validated body of POST /sensor-data (schemas/sensor.schema.ts DTO). -/
structure SensorPayload where
  device_id : String
  timestamp : String
  temperature : Rat
  humidity : Rat
  battery : Option Rat
deriving Repr, DecidableEq

/-- A persisted `sensor_readings` row. -/
structure SensorReading where
  id : String
  deviceId : String
  timestamp : JsDate
  temperature : Rat
  humidity : Rat
  battery : Option Rat
deriving Repr, DecidableEq

/-- The sensor table: rows plus the id-generator counter. -/
structure SensorStore where
  rows : List SensorReading
  nextId : Nat
deriving Repr, DecidableEq

/-- Storage environment: whether the database is reachable, and the
message of the connection error raised when it is not. -/
structure StorageEnv where
  reachable : Bool
  connErrMsg : String
deriving Repr, DecidableEq

/-- Errors raised by the storage layer. -/
inductive DBError where
  | uniqueViolation (msg : String)
  | connectionFailure (msg : String)
deriving Repr, DecidableEq

/-- The `.message` of the `Error` object a `DBError` surfaces as. -/
def DBError.message : DBError → String
  | .uniqueViolation m => m
  | .connectionFailure m => m

/-- Message of the uniqueness-constraint violation on
`UNIQUE (deviceId, timestamp)` (migration AddIoTGreenhouseEntities). -/
def dupKeyMsg : String :=
  "duplicate key value violates unique constraint \"UQ_sensor_device_timestamp\""

/-- Row lookup by the unique key pair. -/
def SensorStore.findRow (db : SensorStore) (d : String) (t : JsDate) :
    Option SensorReading :=
  db.rows.find? (fun r => r.deviceId == d && r.timestamp == t)

/-- Model of `repository.findOne` on the (deviceId, timestamp) key: raises a
connection error when the database is unreachable. -/
def findOne (env : StorageEnv) (db : SensorStore) (d : String) (t : JsDate) :
    Except DBError (Option SensorReading) :=
  if env.reachable then .ok (db.findRow d t)
  else .error (.connectionFailure env.connErrMsg)

/-- Model of `repository.save(newReading)`: raises a connection error when the
database is unreachable, and the uniqueness-constraint violation when a
row with the same (deviceId, timestamp) already exists. -/
def save (env : StorageEnv) (db : SensorStore) (r : SensorReading) :
    Except DBError SensorStore :=
  if env.reachable then
    if (db.findRow r.deviceId r.timestamp).isSome then
      .error (.uniqueViolation dupKeyMsg)
    else
      .ok ⟨db.rows ++ [r], db.nextId + 1⟩
  else .error (.connectionFailure env.connErrMsg)

/-- Result shape of `SensorService.createSensorReading`. -/
structure CreateResult where
  isNew : Bool
  id : String
  data : SensorReading
deriving Repr, DecidableEq

namespace SensorService

/-- Embedding of `SensorService.createSensorReading` (services/sensor.service.ts):
parse the timestamp, look up an existing (deviceId, timestamp) row,
return it unchanged if found, otherwise insert a fresh row.  Errors
from the repository propagate (the service has no try/catch). -/
def createSensorReading (parse : String → JsDate) (env : StorageEnv)
    (db : SensorStore) (data : SensorPayload) :
    Except DBError (SensorStore × CreateResult) :=
  let timestampDate := parse data.timestamp
  match findOne env db data.device_id timestampDate with
  | .error e => .error e
  | .ok (some existingReading) =>
      .ok (db, ⟨false, existingReading.id, existingReading⟩)
  | .ok none =>
      let newReading : SensorReading :=
        ⟨genId db.nextId, data.device_id, timestampDate,
          data.temperature, data.humidity, data.battery⟩
      match save env db newReading with
      | .error e => .error e
      | .ok db2 => .ok (db2, ⟨true, newReading.id, newReading⟩)

/-- The same body as `createSensorReading`, but with the existence check
evaluated against an earlier snapshot `dbSeen` of the store while the
insert runs against the current store `dbNow`.  This is the §4.1 race
interleaving the spec describes: a second concurrent request whose
`findOne` completed before the insert of the first request committed.
`createSensorReading parse env db data` coincides with
`staleCheckSubmit parse env db db data`. -/
def staleCheckSubmit (parse : String → JsDate) (env : StorageEnv)
    (dbSeen dbNow : SensorStore) (data : SensorPayload) :
    Except DBError (SensorStore × CreateResult) :=
  let timestampDate := parse data.timestamp
  match findOne env dbSeen data.device_id timestampDate with
  | .error e => .error e
  | .ok (some existingReading) =>
      .ok (dbNow, ⟨false, existingReading.id, existingReading⟩)
  | .ok none =>
      let newReading : SensorReading :=
        ⟨genId dbNow.nextId, data.device_id, timestampDate,
          data.temperature, data.humidity, data.battery⟩
      match save env dbNow newReading with
      | .error e => .error e
      | .ok db2 => .ok (db2, ⟨true, newReading.id, newReading⟩)

end SensorService

/-! ## Sensor controller (controllers/sensor.controller.ts) -/

/-- The four response branches of `SensorController.createSensorData`. -/
inductive SensorCtrlResponse where
  /-- 201 Created: `success:true, message:"New record created"`. -/
  | created (id : String) (data : SensorReading)
  /-- 200 OK: `success:true, message:"Record already exists"`. -/
  | existing (id : String) (data : SensorReading)
  /-- 503: `success:false, error:"Database connection error"`. -/
  | dbConnectionFailed
  /-- 500: `success:false, error:"Internal server error"`. -/
  | internalFailure
deriving Repr, DecidableEq

/-- HTTP status code of each controller branch. -/
def SensorCtrlResponse.statusCode : SensorCtrlResponse → Nat
  | .created _ _ => 201
  | .existing _ _ => 200
  | .dbConnectionFailed => 503
  | .internalFailure => 500

namespace SensorController

/-- Embedding of `SensorController.createSensorData`: 201 for a new record, 200 for
an existing one; a caught error whose message includes `connect` or
`Connection` becomes 503, every other error 500. -/
def createSensorData (svcResult : Except DBError (SensorStore × CreateResult)) :
    SensorCtrlResponse :=
  match svcResult with
  | .ok (_, result) =>
      if result.isNew then .created result.id result.data
      else .existing result.id result.data
  | .error e =>
      if jsIncludes e.message "connect" || jsIncludes e.message "Connection" then
        .dbConnectionFailed
      else
        .internalFailure

end SensorController

/-! ## Zod validation (schemas/sensor.schema.ts + validate middleware) -/

/-- A JSON value in a request-body field. -/
inductive JVal where
  | jstr (s : String)
  | jnum (q : Rat)
  | jbool (b : Bool)
  | jnull
deriving Repr, DecidableEq

/-- One entry of the `details` array of the 400 response. -/
structure FieldIssue where
  field : String
  message : String
deriving Repr, DecidableEq

/-- Raw (not yet validated) body of POST /sensor-data; `none` means the
key is absent. -/
structure RawBody where
  device_id : Option JVal
  timestamp : Option JVal
  temperature : Option JVal
  humidity : Option JVal
  battery : Option JVal
deriving Repr, DecidableEq

/-- Issues of `device_id: z.string().min(1)` with message `device_id is required`. -/
def deviceIdIssues : Option JVal → List FieldIssue
  | none => [⟨"device_id", "Required"⟩]
  | some (.jstr s) =>
      if s.length < 1 then [⟨"device_id", "device_id is required"⟩] else []
  | some _ => [⟨"device_id", "Expected string"⟩]

/-- Issues of `timestamp: z.string().refine(v => !isNaN(Date.parse(v)))`:
a non-string fails the base check, a string failing to parse fails the
refinement; either way the issue path is `timestamp`. -/
def timestampIssues (parse : String → JsDate) : Option JVal → List FieldIssue
  | none => [⟨"timestamp", "Required"⟩]
  | some (.jstr s) =>
      if (parse s).isNone then
        [⟨"timestamp", "timestamp must be a valid ISO8601 format"⟩]
      else []
  | some _ => [⟨"timestamp", "Expected string"⟩]

/-- Issues of `temperature: z.number()`. -/
def temperatureIssues : Option JVal → List FieldIssue
  | none => [⟨"temperature", "Required"⟩]
  | some (.jnum _) => []
  | some _ => [⟨"temperature", "Expected number"⟩]

/-- Issues of `humidity: z.number().min(0)` with message `humidity must be a positive number`. -/
def humidityIssues : Option JVal → List FieldIssue
  | none => [⟨"humidity", "Required"⟩]
  | some (.jnum q) =>
      if q < 0 then [⟨"humidity", "humidity must be a positive number"⟩] else []
  | some _ => [⟨"humidity", "Expected number"⟩]

/-- Issues of `battery: z.number().optional()`. -/
def batteryIssues : Option JVal → List FieldIssue
  | none => []
  | some (.jnum _) => []
  | some _ => [⟨"battery", "Expected number"⟩]

/-- Extract a string field once validation passed. -/
def asStr : Option JVal → String
  | some (.jstr s) => s
  | _ => ""

/-- Extract a numeric field once validation passed. -/
def asNum : Option JVal → Rat
  | some (.jnum q) => q
  | _ => 0

/-- Extract an optional numeric field once validation passed. -/
def asOptNum : Option JVal → Option Rat
  | some (.jnum q) => some q
  | _ => none

/-- Embedding of `createSensorDataSchema.parse`: check every key (in declaration
order, collecting all issues, as the object schema does) and either
return the typed DTO or the issue list. -/
def createSensorDataSchema (parse : String → JsDate) (b : RawBody) :
    Except (List FieldIssue) SensorPayload :=
  let issues :=
    deviceIdIssues b.device_id ++ timestampIssues parse b.timestamp ++
    temperatureIssues b.temperature ++ humidityIssues b.humidity ++
    batteryIssues b.battery
  if issues.isEmpty then
    .ok ⟨asStr b.device_id, asStr b.timestamp, asNum b.temperature,
      asNum b.humidity, asOptNum b.battery⟩
  else .error issues

/-- Response of the whole POST /sensor-data pipeline: either the 400 the
`validate` middleware sends on a `ZodError`, or a controller response. -/
inductive SensorEndpointResponse where
  | badRequest (details : List FieldIssue)
  | fromController (r : SensorCtrlResponse)
deriving Repr, DecidableEq

/-- HTTP status of a pipeline response. -/
def SensorEndpointResponse.statusCode : SensorEndpointResponse → Nat
  | .badRequest _ => 400
  | .fromController r => r.statusCode

/-- Outcome of one POST /sensor-data request: final store, response, and
whether the controller/service layer was ever invoked. -/
structure PipelineOutcome where
  store : SensorStore
  response : SensorEndpointResponse
  serviceInvoked : Bool
deriving Repr, DecidableEq

/-- The route `validate(createSensorDataSchema)` → controller → service:
on a schema failure the middleware responds 400 with the per-field
details and never calls the handler; otherwise the controller runs the
service on the validated DTO and formats the result. -/
def postSensorData (parse : String → JsDate) (env : StorageEnv)
    (db : SensorStore) (b : RawBody) : PipelineOutcome :=
  match createSensorDataSchema parse b with
  | .error issues => ⟨db, .badRequest issues, false⟩
  | .ok payload =>
      match SensorService.createSensorReading parse env db payload with
      | .ok (db2, result) =>
          ⟨db2, .fromController (SensorController.createSensorData (.ok (db2, result))), true⟩
      | .error e =>
          ⟨db, .fromController (SensorController.createSensorData (.error e)), true⟩

/-! ## Device commands (entities/DeviceCommand.ts, services/device.service.ts) -/

/-- The `CommandType` enum: the two accepted commands. -/
inductive CommandType where
  | ON
  | OFF
deriving Repr, DecidableEq

/-- The wire string of a command. -/
def CommandType.str : CommandType → String
  | .ON => "ON"
  | .OFF => "OFF"

/-- The `CommandStatus` enum. -/
inductive CommandStatus where
  | queued
  | published
  | error
deriving Repr, DecidableEq

/-- A persisted `device_commands` row. -/
structure DeviceCommand where
  id : String
  deviceId : String
  command : CommandType
  status : CommandStatus
  errorMessage : Option String
deriving Repr, DecidableEq

/-- The device-command table: rows plus the id-generator counter. -/
structure CommandStore where
  rows : List DeviceCommand
  nextId : Nat
deriving Repr, DecidableEq

/-- Row lookup by id. -/
def CommandStore.getById (db : CommandStore) (i : String) : Option DeviceCommand :=
  db.rows.find? (fun r => r.id == i)

/-- Model of `repository.save` on a freshly created record: insert with a
generated id. -/
def saveNewCommand (db : CommandStore) (c : DeviceCommand) : CommandStore :=
  ⟨db.rows ++ [c], db.nextId + 1⟩

/-- Model of `repository.save` on an already-saved record: update the row in
place (matched by id). -/
def updateCommand (db : CommandStore) (c : DeviceCommand) : CommandStore :=
  ⟨db.rows.map (fun r => if r.id == c.id then c else r), db.nextId⟩

/-- The MQTT publish payload built by the service: exactly the two
fields `command` and `timestamp`. -/
structure MqttPayload where
  command : String
  timestamp : String
deriving Repr, DecidableEq

/-- Rendering of `JSON.stringify` on the two-field payload. -/
def jsonStringifyPayload (p : MqttPayload) : String :=
  "\x7b\"command\":\"" ++ p.command ++ "\",\"timestamp\":\"" ++ p.timestamp ++ "\"\x7d"

/-- Everything one `sendControlCommand` invocation produces: the final
store, the store right after step 1 (record persisted as `queued`), the
single publish attempt (topic and message), and the returned value or
re-thrown error. -/
structure SendOutcome where
  store : CommandStore
  queuedStore : CommandStore
  topic : String
  message : String
  result : Except JsThrown DeviceCommand
deriving Repr

namespace DeviceService

/-- Embedding of `DeviceService.sendControlCommand` (services/device.service.ts):
save a `queued` record, publish `{command, timestamp: now}` to
`greenhouse/control/<deviceId>`, then update the record to `published`
on success or to `error` (storing the message of the error, or the fallback
`"Unknown MQTT error"` for a non-`Error` value) and re-throw on
failure.  `publishOutcome` is what `mqttService.publish` does; `now` is
`new Date().toISOString()`. -/
def sendControlCommand (publishOutcome : Except JsThrown Unit) (now : String)
    (db : CommandStore) (device_id : String) (command : CommandType) :
    SendOutcome :=
  let commandRecord : DeviceCommand :=
    ⟨genId db.nextId, device_id, command, .queued, none⟩
  let db1 := saveNewCommand db commandRecord
  let mqttPayload : MqttPayload := ⟨command.str, now⟩
  let topic := "greenhouse/control/" ++ device_id
  match publishOutcome with
  | .ok _ =>
      let savedCommand := { commandRecord with status := .published }
      ⟨updateCommand db1 savedCommand, db1, topic,
        jsonStringifyPayload mqttPayload, .ok savedCommand⟩
  | .error e =>
      let savedCommand :=
        { commandRecord with status := .error, errorMessage := some e.coercedMessage }
      ⟨updateCommand db1 savedCommand, db1, topic,
        jsonStringifyPayload mqttPayload, .error e⟩

end DeviceService

/-- Response branches of `DeviceController.sendControlCommand`. -/
inductive DeviceCtrlResponse where
  /-- 201: `success:true, status, data:{id, deviceId, command, status}`. -/
  | createdResp (status : CommandStatus) (id : String) (deviceId : String)
      (command : CommandType)
  /-- 500: `success:false, error:"MQTT publish failed", message, status:"error"`. -/
  | mqttFailed (message : String)
  /-- 500: `success:false, error:"Internal server error"` (no `status` field). -/
  | internalResp
deriving Repr, DecidableEq

/-- HTTP status code of each device-controller branch. -/
def DeviceCtrlResponse.statusCode : DeviceCtrlResponse → Nat
  | .createdResp _ _ _ _ => 201
  | .mqttFailed _ => 500
  | .internalResp => 500

/-- The `status` field of the response body, when present. -/
def DeviceCtrlResponse.bodyStatus : DeviceCtrlResponse → Option String
  | .createdResp s _ _ _ =>
      some (match s with
        | .queued => "queued"
        | .published => "published"
        | .error => "error")
  | .mqttFailed _ => some "error"
  | .internalResp => none

namespace DeviceController

/-- Embedding of `DeviceController.sendControlCommand` (controllers/device.controller.ts):
201 with the record on success; a caught `Error` becomes 500 with
`status:"error"`; any other thrown value becomes the generic 500. -/
def sendControlCommand (out : SendOutcome) : DeviceCtrlResponse :=
  match out.result with
  | .ok commandRecord =>
      .createdResp commandRecord.status commandRecord.id
        commandRecord.deviceId commandRecord.command
  | .error (.errorInstance m) => .mqttFailed m
  | .error .nonErrorValue => .internalResp

end DeviceController

/-! ## Health check (services/health.service.ts, controllers/health.controller.ts) -/

/-- Probe status values. -/
inductive ConnStatus where
  | connected
  | disconnected
deriving Repr, DecidableEq

/-- The `db` section of the health result. -/
structure DbHealth where
  status : ConnStatus
  latency_ms : Nat
  error : Option String
deriving Repr, DecidableEq

/-- The `mqtt` section of the health result. -/
structure MqttHealth where
  status : ConnStatus
  error : Option String
deriving Repr, DecidableEq

/-- A settled promise, as `Promise.allSettled` reports it. -/
inductive Settled (α : Type) where
  | fulfilled (value : α)
  | rejected
deriving Repr, DecidableEq

/-- Return value of `HealthService.performHealthCheck`. -/
structure HealthStatus where
  isHealthy : Bool
  service : String
  db : DbHealth
  mqtt : MqttHealth
deriving Repr, DecidableEq

namespace HealthService

/-- Embedding of `HealthService.checkDatabase`: `SELECT 1` round-trip.  The outcome
of the query is a parameter: elapsed milliseconds on success, the
thrown value on failure (caught and reported as `disconnected`). -/
def checkDatabase (queryOutcome : Except JsThrown Nat) : DbHealth :=
  match queryOutcome with
  | .ok latency => ⟨.connected, latency, none⟩
  | .error (.errorInstance m) => ⟨.disconnected, 0, some m⟩
  | .error .nonErrorValue => ⟨.disconnected, 0, some "Unknown database error"⟩

/-- Embedding of `HealthService.checkMQTT`: inspect the connection flag of the client;
`client` is `none` when `mqttService.getClient()` returns null,
otherwise `some` of its `connected` flag. -/
def checkMQTT (client : Option Bool) : MqttHealth :=
  match client with
  | none => ⟨.disconnected, some "MQTT client not initialized"⟩
  | some true => ⟨.connected, none⟩
  | some false => ⟨.disconnected, some "MQTT client disconnected"⟩

/-- Extraction of the settled result of the db probe, with the fallback the
code supplies for a rejected promise. -/
def dbHealthOf : Settled DbHealth → DbHealth
  | .fulfilled v => v
  | .rejected => ⟨.disconnected, 0, some "Health check failed"⟩

/-- Extraction of the settled result of the mqtt probe, with the fallback
the code supplies for a rejected promise. -/
def mqttHealthOf : Settled MqttHealth → MqttHealth
  | .fulfilled v => v
  | .rejected => ⟨.disconnected, some "Health check failed"⟩

/-- Embedding of `HealthService.performHealthCheck`: join the two settled probes
(`Promise.allSettled`), fall back per probe on rejection, and aggregate
`ok` iff both report `connected`. -/
def performHealthCheck (dbResult : Settled DbHealth)
    (mqttResult : Settled MqttHealth) : HealthStatus :=
  let dbHealth := dbHealthOf dbResult
  let mqttHealth := mqttHealthOf mqttResult
  let isHealthy :=
    dbHealth.status == ConnStatus.connected &&
    mqttHealth.status == ConnStatus.connected
  ⟨isHealthy, if isHealthy then "ok" else "degraded", dbHealth, mqttHealth⟩

end HealthService

/-- HTTP view of the response of the health endpoint. -/
structure HealthResponse where
  httpStatus : Nat
  service : String
  db : DbHealth
  mqtt : MqttHealth
deriving Repr, DecidableEq

namespace HealthController

/-- Embedding of `HealthController.getStatus` (controllers/health.controller.ts):
run the health check and answer 200 when healthy, 503 otherwise, with
the aggregate and both probe sections in the body. -/
def getStatus (dbResult : Settled DbHealth) (mqttResult : Settled MqttHealth) :
    HealthResponse :=
  let healthStatus := HealthService.performHealthCheck dbResult mqttResult
  ⟨if healthStatus.isHealthy then 200 else 503,
    healthStatus.service, healthStatus.db, healthStatus.mqtt⟩

end HealthController

/-! ## Concrete inputs used by the closed instances below -/

/-- A concrete date parser for closed examples: it recognises the two
renderings of the instant 2024-12-26T10:30:00Z and rejects anything
else (as `Date.parse` rejects `"not-a-date"`). -/
def exampleParse : String → JsDate := fun s =>
  if s = "2024-12-26T10:30:00Z" then some 1735209000000
  else if s = "2024-12-26T10:30:00.000+00:00" then some 1735209000000
  else none

/-- A reachable database. -/
def exampleEnv : StorageEnv := ⟨true, "connect ECONNREFUSED 127.0.0.1:5432"⟩

/-- An unreachable database, raising the usual driver message. -/
def exampleDownEnv : StorageEnv := ⟨false, "connect ECONNREFUSED 127.0.0.1:5432"⟩

/-- An empty sensor table. -/
def emptySensorStore : SensorStore := ⟨[], 0⟩

/-- An empty device-command table. -/
def emptyCommandStore : CommandStore := ⟨[], 0⟩

/-- A validated sensor payload. -/
def examplePayload : SensorPayload :=
  ⟨"greenhouse-01", "2024-12-26T10:30:00Z", 24, 68, none⟩

/-- Same (device, timestamp) key as `examplePayload` but different
measured values — the first-write-wins duplicate. -/
def exampleDupPayload : SensorPayload :=
  ⟨"greenhouse-01", "2024-12-26T10:30:00Z", 30, 50, some 10⟩

/-- Same device and the same instant as `examplePayload`, rendered as a
different timestamp string. -/
def exampleAltFormatPayload : SensorPayload :=
  ⟨"greenhouse-01", "2024-12-26T10:30:00.000+00:00", 30, 50, some 10⟩

/-- The row the first `examplePayload` submission inserts into the
empty store. -/
def exampleReading : SensorReading :=
  ⟨"uuid-0", "greenhouse-01", some 1735209000000, 24, 68, none⟩

/-- The row the first submission inserts: fresh id from the counter of
the store, the key and measured values of the payload. -/
def insertedReading (db : SensorStore) (p : SensorPayload) (ts : Int) : SensorReading :=
  ⟨genId db.nextId, p.device_id, some ts, p.temperature, p.humidity, p.battery⟩

/-- A raw body whose timestamp does not parse (`"not-a-date"`). -/
def exampleBadTimestampBody : RawBody :=
  ⟨some (.jstr "greenhouse-01"), some (.jstr "not-a-date"),
    some (.jnum 24), some (.jnum 68), none⟩

/-- A raw body with `humidity: -1`. -/
def exampleNegHumidityBody : RawBody :=
  ⟨some (.jstr "greenhouse-01"), some (.jstr "2024-12-26T10:30:00Z"),
    some (.jnum 24), some (.jnum (-1)), none⟩

/-- A raw body that validates to `examplePayload`. -/
def exampleGoodBody : RawBody :=
  ⟨some (.jstr "greenhouse-01"), some (.jstr "2024-12-26T10:30:00Z"),
    some (.jnum 24), some (.jnum 68), none⟩

/-! ## Helper lemmas -/

/-- Updating by an id absent from the list leaves the list unchanged. -/
theorem map_update_of_fresh (l : List DeviceCommand) (c : DeviceCommand)
    (h : ∀ r ∈ l, (r.id == c.id) = false) :
    l.map (fun r => if r.id == c.id then c else r) = l := by
  induction l with
  | nil => rfl
  | cons a t ih =>
      have ha := h a (List.mem_cons_self a t)
      simp only [List.map_cons, ha, if_neg Bool.false_ne_true]
      rw [ih (fun r hr => h r (List.mem_cons_of_mem a hr))]

/-- A freshly inserted command is found by its id. -/
theorem getById_saveNew (db : CommandStore) (c : DeviceCommand)
    (hfresh : db.getById c.id = none) :
    (saveNewCommand db c).getById c.id = some c := by
  unfold CommandStore.getById saveNewCommand at *
  rw [List.find?_append, hfresh]
  simp [List.find?]

/-- After inserting `c` into a store with no row of its id and then
updating it to `c'` (same id), lookup by that id yields `c'`. -/
theorem getById_update_insert (db : CommandStore) (c c' : DeviceCommand)
    (hid : c'.id = c.id) (hfresh : db.getById c.id = none) :
    (updateCommand (saveNewCommand db c) c').getById c.id = some c' := by
  unfold CommandStore.getById updateCommand saveNewCommand at *
  have hall : ∀ r ∈ db.rows, (r.id == c.id) = false := by
    intro r hr
    have hne := List.find?_eq_none.mp hfresh r hr
    simpa using hne
  simp only [List.map_append, List.map_cons, List.map_nil]
  rw [map_update_of_fresh db.rows c' (by intro r hr; rw [hid]; exact hall r hr)]
  rw [List.find?_append, hfresh]
  simp [List.find?, hid]

/-- Core of the idempotency contract: against a reachable store with no
row for the key, a first submission inserts one row, and a second
submission whose timestamp parses to the same instant (with the same
device) returns that row unchanged — same id, `isNew = false`, store
untouched — regardless of the measured values in the second payload. -/
theorem double_submit_core (parse : String → JsDate) (env : StorageEnv)
    (db : SensorStore) (p1 p2 : SensorPayload) (ts : Int)
    (henv : env.reachable = true)
    (h1 : parse p1.timestamp = some ts)
    (h2 : parse p2.timestamp = some ts)
    (hdev : p2.device_id = p1.device_id)
    (hfresh : db.findRow p1.device_id (some ts) = none) :
    SensorService.createSensorReading parse env db p1 =
      .ok (⟨db.rows ++ [insertedReading db p1 ts], db.nextId + 1⟩,
        ⟨true, genId db.nextId, insertedReading db p1 ts⟩) ∧
    SensorService.createSensorReading parse env
        ⟨db.rows ++ [insertedReading db p1 ts], db.nextId + 1⟩ p2 =
      .ok (⟨db.rows ++ [insertedReading db p1 ts], db.nextId + 1⟩,
        ⟨false, genId db.nextId, insertedReading db p1 ts⟩) := by
  have hrow1 : SensorStore.findRow
      ⟨db.rows ++ [insertedReading db p1 ts], db.nextId + 1⟩
      p1.device_id (some ts) = some (insertedReading db p1 ts) := by
    unfold SensorStore.findRow at hfresh ⊢
    rw [List.find?_append, hfresh]
    simp [List.find?, insertedReading]
  constructor
  · simp only [SensorService.createSensorReading, h1, findOne, henv, if_true,
      hfresh, save, insertedReading]
    simp [hfresh]
  · simp only [SensorService.createSensorReading, h2, hdev, findOne, henv,
      if_true, hrow1]
    simp [insertedReading]

/-! ## Claim theorems -/

/-- C5: the aggregate of the health check is `ok` iff both the database probe
and the broker probe report `connected`, and `degraded` otherwise; the
HTTP status is 200 exactly when the aggregate is `ok` and 503 exactly
when it is `degraded`, in every combination of probe outcomes. -/
theorem healthAggregate_ok_iff_both_connected
    (d : Settled DbHealth) (m : Settled MqttHealth) :
    ((HealthController.getStatus d m).service = "ok" ↔
      ((HealthService.dbHealthOf d).status = ConnStatus.connected ∧
       (HealthService.mqttHealthOf m).status = ConnStatus.connected)) ∧
    ((HealthController.getStatus d m).service = "ok" ∨
      (HealthController.getStatus d m).service = "degraded") ∧
    ((HealthController.getStatus d m).httpStatus = 200 ↔
      (HealthController.getStatus d m).service = "ok") ∧
    ((HealthController.getStatus d m).httpStatus = 503 ↔
      (HealthController.getStatus d m).service = "degraded") := by
  cases hdb : (HealthService.dbHealthOf d).status <;>
    cases hm : (HealthService.mqttHealthOf m).status <;>
      simp [HealthController.getStatus, HealthService.performHealthCheck, hdb, hm]

/-- C6: the two health probes are independent — for every combination of
settled outcomes (fulfilled value or rejection) the result carries both
a `db` and an `mqtt` section, each reporting the outcome of that probe
(with the fixed fallback section when the promise of that probe rejected),
regardless of what the other probe did. -/
theorem healthProbes_independent :
    (∀ (v : DbHealth) (m : Settled MqttHealth),
      (HealthService.performHealthCheck (.fulfilled v) m).db = v) ∧
    (∀ m : Settled MqttHealth,
      (HealthService.performHealthCheck .rejected m).db =
        ⟨.disconnected, 0, some "Health check failed"⟩) ∧
    (∀ (d : Settled DbHealth) (v : MqttHealth),
      (HealthService.performHealthCheck d (.fulfilled v)).mqtt = v) ∧
    (∀ d : Settled DbHealth,
      (HealthService.performHealthCheck d .rejected).mqtt =
        ⟨.disconnected, some "Health check failed"⟩) :=
  ⟨fun _ _ => rfl, fun _ => rfl, fun _ _ => rfl, fun _ => rfl⟩

/-- C9: every `sendControlCommand` publishes to exactly
`greenhouse/control/<deviceId>` and its message is the JSON object with
exactly the two fields `command` (the requested ON/OFF value) and
`timestamp` (the ISO-8601 rendering `now` of the current instant). -/
theorem sendCommand_topic_and_payload (pub : Except JsThrown Unit) (now : String)
    (db : CommandStore) (d : String) (cmd : CommandType) :
    (DeviceService.sendControlCommand pub now db d cmd).topic =
      "greenhouse/control/" ++ d ∧
    (DeviceService.sendControlCommand pub now db d cmd).message =
      "\x7b\"command\":\"" ++ cmd.str ++ "\",\"timestamp\":\"" ++ now ++ "\"\x7d" := by
  cases pub <;> exact ⟨rfl, rfl⟩

/-- C3: every `sendControlCommand` invocation that completes — whether
it returns normally or propagates the publish error — leaves the
persisted record at exactly `published` or `error`, never `queued`; the
record was persisted as `queued` at step 1 and moved forward from
there, and the completed command is never re-queued. -/
theorem sendCommand_terminal_status (pub : Except JsThrown Unit) (now : String)
    (db : CommandStore) (d : String) (cmd : CommandType)
    (hfresh : db.getById (genId db.nextId) = none) :
    ∃ rec : DeviceCommand,
      (DeviceService.sendControlCommand pub now db d cmd).store.getById
          (genId db.nextId) = some rec ∧
      (rec.status = .published ∨ rec.status = .error) ∧
      rec.status ≠ .queued ∧
      (DeviceService.sendControlCommand pub now db d cmd).queuedStore.getById
          (genId db.nextId) = some ⟨genId db.nextId, d, cmd, .queued, none⟩ := by
  cases pub with
  | ok u =>
      refine ⟨⟨genId db.nextId, d, cmd, .published, none⟩, ?_, Or.inl rfl, by simp, ?_⟩
      · exact getById_update_insert db ⟨genId db.nextId, d, cmd, .queued, none⟩ _ rfl hfresh
      · exact getById_saveNew db _ hfresh
  | error e =>
      refine ⟨⟨genId db.nextId, d, cmd, .error, some e.coercedMessage⟩, ?_,
        Or.inr rfl, by simp, ?_⟩
      · exact getById_update_insert db ⟨genId db.nextId, d, cmd, .queued, none⟩ _ rfl hfresh
      · exact getById_saveNew db _ hfresh

/-- Closed instance of `sendCommand_terminal_status` at a concrete
command against the empty store. -/
theorem sendCommand_terminal_status_witness :
    ∃ rec : DeviceCommand,
      (DeviceService.sendControlCommand (.ok ()) "2024-12-27T12:00:00.000Z"
          emptyCommandStore "greenhouse-01" .ON).store.getById
          (genId emptyCommandStore.nextId) = some rec ∧
      (rec.status = .published ∨ rec.status = .error) ∧
      rec.status ≠ .queued ∧
      (DeviceService.sendControlCommand (.ok ()) "2024-12-27T12:00:00.000Z"
          emptyCommandStore "greenhouse-01" .ON).queuedStore.getById
          (genId emptyCommandStore.nextId) =
        some ⟨genId emptyCommandStore.nextId, "greenhouse-01", .ON, .queued, none⟩ :=
  sendCommand_terminal_status (.ok ()) "2024-12-27T12:00:00.000Z"
    emptyCommandStore "greenhouse-01" .ON rfl

/-- C4: when the publish step throws an `Error` with message `m`, the
persisted record ends at status `error` with `errorMessage = m`
(non-empty when `m` is), the failure is re-thrown and the controller
answers 500 with body status `"error"`; on a successful publish the
record ends at `published` and the controller answers 201. -/
theorem sendCommand_error_and_success_paths (now : String) (db : CommandStore)
    (d : String) (cmd : CommandType) (m : String)
    (hm : m ≠ "")
    (hfresh : db.getById (genId db.nextId) = none) :
    ((DeviceService.sendControlCommand (.error (.errorInstance m)) now db d cmd).store.getById
        (genId db.nextId) = some ⟨genId db.nextId, d, cmd, .error, some m⟩ ∧
      m ≠ "" ∧
      (DeviceService.sendControlCommand (.error (.errorInstance m)) now db d cmd).result =
        .error (.errorInstance m) ∧
      DeviceController.sendControlCommand
          (DeviceService.sendControlCommand (.error (.errorInstance m)) now db d cmd) =
        .mqttFailed m ∧
      (DeviceCtrlResponse.mqttFailed m).statusCode = 500 ∧
      (DeviceCtrlResponse.mqttFailed m).bodyStatus = some "error") ∧
    ((DeviceService.sendControlCommand (.ok ()) now db d cmd).store.getById
        (genId db.nextId) = some ⟨genId db.nextId, d, cmd, .published, none⟩ ∧
      DeviceController.sendControlCommand
          (DeviceService.sendControlCommand (.ok ()) now db d cmd) =
        .createdResp .published (genId db.nextId) d cmd ∧
      (DeviceCtrlResponse.createdResp .published (genId db.nextId) d cmd).statusCode = 201) := by
  refine ⟨⟨?_, hm, rfl, rfl, rfl, rfl⟩, ⟨?_, rfl, rfl⟩⟩
  · exact getById_update_insert db ⟨genId db.nextId, d, cmd, .queued, none⟩ _ rfl hfresh
  · exact getById_update_insert db ⟨genId db.nextId, d, cmd, .queued, none⟩ _ rfl hfresh

/-- Closed instance of `sendCommand_error_and_success_paths` for an
unreachable broker (`connect ECONNREFUSED`) against the empty store. -/
theorem sendCommand_error_and_success_paths_witness :
    ((DeviceService.sendControlCommand
        (.error (.errorInstance "connect ECONNREFUSED 127.0.0.1:1883"))
        "2024-12-27T12:00:00.000Z" emptyCommandStore "greenhouse-01" .ON).store.getById
        (genId emptyCommandStore.nextId) =
      some ⟨genId emptyCommandStore.nextId, "greenhouse-01", .ON, .error,
        some "connect ECONNREFUSED 127.0.0.1:1883"⟩ ∧
      "connect ECONNREFUSED 127.0.0.1:1883" ≠ "" ∧
      (DeviceService.sendControlCommand
        (.error (.errorInstance "connect ECONNREFUSED 127.0.0.1:1883"))
        "2024-12-27T12:00:00.000Z" emptyCommandStore "greenhouse-01" .ON).result =
        .error (.errorInstance "connect ECONNREFUSED 127.0.0.1:1883") ∧
      DeviceController.sendControlCommand
          (DeviceService.sendControlCommand
            (.error (.errorInstance "connect ECONNREFUSED 127.0.0.1:1883"))
            "2024-12-27T12:00:00.000Z" emptyCommandStore "greenhouse-01" .ON) =
        .mqttFailed "connect ECONNREFUSED 127.0.0.1:1883" ∧
      (DeviceCtrlResponse.mqttFailed "connect ECONNREFUSED 127.0.0.1:1883").statusCode = 500 ∧
      (DeviceCtrlResponse.mqttFailed "connect ECONNREFUSED 127.0.0.1:1883").bodyStatus =
        some "error") ∧
    ((DeviceService.sendControlCommand (.ok ()) "2024-12-27T12:00:00.000Z"
        emptyCommandStore "greenhouse-01" .ON).store.getById
        (genId emptyCommandStore.nextId) =
      some ⟨genId emptyCommandStore.nextId, "greenhouse-01", .ON, .published, none⟩ ∧
      DeviceController.sendControlCommand
          (DeviceService.sendControlCommand (.ok ()) "2024-12-27T12:00:00.000Z"
            emptyCommandStore "greenhouse-01" .ON) =
        .createdResp .published (genId emptyCommandStore.nextId) "greenhouse-01" .ON ∧
      (DeviceCtrlResponse.createdResp .published (genId emptyCommandStore.nextId)
          "greenhouse-01" .ON).statusCode = 201) :=
  sendCommand_error_and_success_paths "2024-12-27T12:00:00.000Z" emptyCommandStore
    "greenhouse-01" .ON "connect ECONNREFUSED 127.0.0.1:1883" (by decide) rfl

/-- C1: submitting the identical (device_id, timestamp) pair twice: the
first call inserts and answers 201 with `isNew = true`; the second —
even with different temperature/humidity/battery values — answers 200
with `isNew = false`, the same id and the original record, and leaves
the store untouched (at most one insert, no update: first write wins). -/
theorem submit_twice_idempotent (parse : String → JsDate) (env : StorageEnv)
    (db : SensorStore) (p1 p2 : SensorPayload) (ts : Int)
    (henv : env.reachable = true)
    (h1 : parse p1.timestamp = some ts)
    (hts : p2.timestamp = p1.timestamp)
    (hdev : p2.device_id = p1.device_id)
    (hfresh : db.findRow p1.device_id (some ts) = none) :
    SensorService.createSensorReading parse env db p1 =
      .ok (⟨db.rows ++ [insertedReading db p1 ts], db.nextId + 1⟩,
        ⟨true, genId db.nextId, insertedReading db p1 ts⟩) ∧
    (SensorController.createSensorData
        (SensorService.createSensorReading parse env db p1)).statusCode = 201 ∧
    SensorService.createSensorReading parse env
        ⟨db.rows ++ [insertedReading db p1 ts], db.nextId + 1⟩ p2 =
      .ok (⟨db.rows ++ [insertedReading db p1 ts], db.nextId + 1⟩,
        ⟨false, genId db.nextId, insertedReading db p1 ts⟩) ∧
    (SensorController.createSensorData
        (SensorService.createSensorReading parse env
          ⟨db.rows ++ [insertedReading db p1 ts], db.nextId + 1⟩ p2)).statusCode = 200 := by
  obtain ⟨hA, hC⟩ :=
    double_submit_core parse env db p1 p2 ts henv h1 (by rw [hts]; exact h1) hdev hfresh
  refine ⟨hA, ?_, hC, ?_⟩
  · rw [hA]; rfl
  · rw [hC]; rfl

/-- Closed instance of `submit_twice_idempotent`: the duplicate carries
different measured values and still gets the original row back. -/
theorem submit_twice_idempotent_witness :
    SensorService.createSensorReading exampleParse exampleEnv emptySensorStore examplePayload =
      .ok (⟨emptySensorStore.rows ++
          [insertedReading emptySensorStore examplePayload 1735209000000],
          emptySensorStore.nextId + 1⟩,
        ⟨true, genId emptySensorStore.nextId,
          insertedReading emptySensorStore examplePayload 1735209000000⟩) ∧
    (SensorController.createSensorData
        (SensorService.createSensorReading exampleParse exampleEnv emptySensorStore
          examplePayload)).statusCode = 201 ∧
    SensorService.createSensorReading exampleParse exampleEnv
        ⟨emptySensorStore.rows ++
          [insertedReading emptySensorStore examplePayload 1735209000000],
          emptySensorStore.nextId + 1⟩ exampleDupPayload =
      .ok (⟨emptySensorStore.rows ++
          [insertedReading emptySensorStore examplePayload 1735209000000],
          emptySensorStore.nextId + 1⟩,
        ⟨false, genId emptySensorStore.nextId,
          insertedReading emptySensorStore examplePayload 1735209000000⟩) ∧
    (SensorController.createSensorData
        (SensorService.createSensorReading exampleParse exampleEnv
          ⟨emptySensorStore.rows ++
            [insertedReading emptySensorStore examplePayload 1735209000000],
            emptySensorStore.nextId + 1⟩ exampleDupPayload)).statusCode = 200 :=
  submit_twice_idempotent exampleParse exampleEnv emptySensorStore examplePayload
    exampleDupPayload 1735209000000 rfl (by decide) rfl rfl rfl

/-- C10: the idempotency key is the parsed timestamp instant, not the
literal string — two payloads for the same device whose timestamp
strings parse to the same instant hit the same row: the second
submission returns the id of the first record with `isNew = false` and
performs no insert. -/
theorem idempotency_key_is_parsed_instant (parse : String → JsDate)
    (env : StorageEnv) (db : SensorStore) (p1 p2 : SensorPayload) (ts : Int)
    (henv : env.reachable = true)
    (h1 : parse p1.timestamp = some ts)
    (h2 : parse p2.timestamp = some ts)
    (hdev : p2.device_id = p1.device_id)
    (hfresh : db.findRow p1.device_id (some ts) = none) :
    SensorService.createSensorReading parse env db p1 =
      .ok (⟨db.rows ++ [insertedReading db p1 ts], db.nextId + 1⟩,
        ⟨true, genId db.nextId, insertedReading db p1 ts⟩) ∧
    SensorService.createSensorReading parse env
        ⟨db.rows ++ [insertedReading db p1 ts], db.nextId + 1⟩ p2 =
      .ok (⟨db.rows ++ [insertedReading db p1 ts], db.nextId + 1⟩,
        ⟨false, genId db.nextId, insertedReading db p1 ts⟩) :=
  double_submit_core parse env db p1 p2 ts henv h1 h2 hdev hfresh

/-- Closed instance of `idempotency_key_is_parsed_instant` at the two
renderings `"2024-12-26T10:30:00Z"` / `"2024-12-26T10:30:00.000+00:00"`
of one instant. -/
theorem idempotency_key_is_parsed_instant_witness :
    SensorService.createSensorReading exampleParse exampleEnv emptySensorStore examplePayload =
      .ok (⟨emptySensorStore.rows ++
          [insertedReading emptySensorStore examplePayload 1735209000000],
          emptySensorStore.nextId + 1⟩,
        ⟨true, genId emptySensorStore.nextId,
          insertedReading emptySensorStore examplePayload 1735209000000⟩) ∧
    SensorService.createSensorReading exampleParse exampleEnv
        ⟨emptySensorStore.rows ++
          [insertedReading emptySensorStore examplePayload 1735209000000],
          emptySensorStore.nextId + 1⟩ exampleAltFormatPayload =
      .ok (⟨emptySensorStore.rows ++
          [insertedReading emptySensorStore examplePayload 1735209000000],
          emptySensorStore.nextId + 1⟩,
        ⟨false, genId emptySensorStore.nextId,
          insertedReading emptySensorStore examplePayload 1735209000000⟩) :=
  idempotency_key_is_parsed_instant exampleParse exampleEnv emptySensorStore
    examplePayload exampleAltFormatPayload 1735209000000 rfl (by decide) (by decide) rfl rfl

/-- C2, refuted on the code: when the race of §4.1 makes the second
insert hit the uniqueness constraint, `createSensorReading` does not
re-fetch — it has no try/catch, so the `uniqueViolation` propagates,
and the message check in the controller (`connect` / `Connection`) matches
neither, so the caller gets the generic 500, not the existing record. -/
theorem race_unique_violation_surfaces_500 :
    SensorService.createSensorReading exampleParse exampleEnv emptySensorStore examplePayload =
      .ok (⟨[exampleReading], 1⟩, ⟨true, "uuid-0", exampleReading⟩) ∧
    SensorService.staleCheckSubmit exampleParse exampleEnv emptySensorStore
        ⟨[exampleReading], 1⟩ exampleDupPayload =
      .error (.uniqueViolation dupKeyMsg) ∧
    SensorController.createSensorData (.error (.uniqueViolation dupKeyMsg)) =
      .internalFailure ∧
    SensorCtrlResponse.internalFailure.statusCode = 500 :=
  ⟨rfl, rfl, rfl, rfl⟩

/-- When the schema rejects a body, the middleware answers the 400 with
the issue list itself and the controller/service layer never runs. -/
theorem schema_error_pipeline (parse : String → JsDate) (env : StorageEnv)
    (db : SensorStore) (b : RawBody) (issues : List FieldIssue)
    (hschema : createSensorDataSchema parse b = .error issues) :
    postSensorData parse env db b = ⟨db, .badRequest issues, false⟩ := by
  unfold postSensorData
  rw [hschema]

/-- The issue list the schema computes for a body. -/
theorem schema_issues_shape (parse : String → JsDate) (b : RawBody) :
    (∀ e ∈ deviceIdIssues b.device_id ++ timestampIssues parse b.timestamp ++
        temperatureIssues b.temperature ++ humidityIssues b.humidity ++
        batteryIssues b.battery,
      createSensorDataSchema parse b =
        .error (deviceIdIssues b.device_id ++ timestampIssues parse b.timestamp ++
          temperatureIssues b.temperature ++ humidityIssues b.humidity ++
          batteryIssues b.battery)) := by
  intro e he
  simp only [createSensorDataSchema]
  simp
  intro h1 h2 h3 h4 h5
  rw [h1, h2, h3, h4, h5] at he
  simp at he

/-- C7: a submission whose timestamp string does not parse is rejected
with HTTP 400 and a `details` entry whose `field` is `"timestamp"`, and
a submission with negative humidity is rejected with HTTP 400; in both
cases validation fails before any service logic runs, so no database
read or insert is performed (the store is untouched and the
controller/service layer is never invoked). -/
theorem validation_rejects_before_service (parse : String → JsDate)
    (env : StorageEnv) (db : SensorStore) (b : RawBody) :
    (∀ t : String, b.timestamp = some (.jstr t) → parse t = none →
      (postSensorData parse env db b).response.statusCode = 400 ∧
      (∃ issues, (postSensorData parse env db b).response = .badRequest issues ∧
        (⟨"timestamp", "timestamp must be a valid ISO8601 format"⟩ : FieldIssue) ∈ issues) ∧
      (postSensorData parse env db b).store = db ∧
      (postSensorData parse env db b).serviceInvoked = false) ∧
    (∀ q : Rat, b.humidity = some (.jnum q) → q < 0 →
      (postSensorData parse env db b).response.statusCode = 400 ∧
      (postSensorData parse env db b).store = db ∧
      (postSensorData parse env db b).serviceInvoked = false) := by
  constructor
  · intro t ht hp
    have hmem : (⟨"timestamp", "timestamp must be a valid ISO8601 format"⟩ : FieldIssue) ∈
        deviceIdIssues b.device_id ++ timestampIssues parse b.timestamp ++
        temperatureIssues b.temperature ++ humidityIssues b.humidity ++
        batteryIssues b.battery := by
      have hts : timestampIssues parse b.timestamp =
          [⟨"timestamp", "timestamp must be a valid ISO8601 format"⟩] := by
        rw [ht]
        simp [timestampIssues, hp]
      simp [hts]
    have hschema := schema_issues_shape parse b _ hmem
    have hpost := schema_error_pipeline parse env db b _ hschema
    rw [hpost]
    exact ⟨rfl, ⟨_, rfl, hmem⟩, rfl, rfl⟩
  · intro q hq hneg
    have hmem : (⟨"humidity", "humidity must be a positive number"⟩ : FieldIssue) ∈
        deviceIdIssues b.device_id ++ timestampIssues parse b.timestamp ++
        temperatureIssues b.temperature ++ humidityIssues b.humidity ++
        batteryIssues b.battery := by
      have hh : humidityIssues b.humidity =
          [⟨"humidity", "humidity must be a positive number"⟩] := by
        rw [hq]
        simp [humidityIssues, hneg]
      simp [hh]
    have hschema := schema_issues_shape parse b _ hmem
    have hpost := schema_error_pipeline parse env db b _ hschema
    rw [hpost]
    exact ⟨rfl, rfl, rfl⟩

/-- Closed instance of `validation_rejects_before_service`: the body
with `timestamp:"not-a-date"` and the body with `humidity:-1`. -/
theorem validation_rejects_before_service_witness :
    ((postSensorData exampleParse exampleEnv emptySensorStore
        exampleBadTimestampBody).response.statusCode = 400 ∧
      (∃ issues, (postSensorData exampleParse exampleEnv emptySensorStore
          exampleBadTimestampBody).response = .badRequest issues ∧
        (⟨"timestamp", "timestamp must be a valid ISO8601 format"⟩ : FieldIssue) ∈ issues) ∧
      (postSensorData exampleParse exampleEnv emptySensorStore
        exampleBadTimestampBody).store = emptySensorStore ∧
      (postSensorData exampleParse exampleEnv emptySensorStore
        exampleBadTimestampBody).serviceInvoked = false) ∧
    ((postSensorData exampleParse exampleEnv emptySensorStore
        exampleNegHumidityBody).response.statusCode = 400 ∧
      (postSensorData exampleParse exampleEnv emptySensorStore
        exampleNegHumidityBody).store = emptySensorStore ∧
      (postSensorData exampleParse exampleEnv emptySensorStore
        exampleNegHumidityBody).serviceInvoked = false) :=
  ⟨(validation_rejects_before_service exampleParse exampleEnv emptySensorStore
      exampleBadTimestampBody).1 "not-a-date" rfl (by decide),
   (validation_rejects_before_service exampleParse exampleEnv emptySensorStore
      exampleNegHumidityBody).2 (-1) rfl (by decide)⟩

/-- C8: the two failure kinds of sensor submission are distinguishable —
a precondition violation yields exactly the 400 with the per-field
details list and never reaches the service, while an unreachable
database (whose connection error carries the usual driver `connect` /
`Connection` wording the controller branches on) yields exactly the
503, which is neither the 400 validation shape nor a generic 500. -/
theorem sensor_failure_kinds_distinguishable (parse : String → JsDate)
    (env : StorageEnv) (db : SensorStore) (b : RawBody) :
    (∀ issues, createSensorDataSchema parse b = .error issues →
      postSensorData parse env db b = ⟨db, .badRequest issues, false⟩ ∧
      (postSensorData parse env db b).response.statusCode = 400) ∧
    (∀ payload, createSensorDataSchema parse b = .ok payload →
      env.reachable = false →
      (jsIncludes env.connErrMsg "connect" || jsIncludes env.connErrMsg "Connection") = true →
      (postSensorData parse env db b).response =
        .fromController .dbConnectionFailed ∧
      (postSensorData parse env db b).response.statusCode = 503 ∧
      (postSensorData parse env db b).store = db ∧
      (postSensorData parse env db b).response.statusCode ≠ 400 ∧
      (postSensorData parse env db b).response.statusCode ≠ 500) := by
  constructor
  · intro issues hschema
    have hpost := schema_error_pipeline parse env db b issues hschema
    rw [hpost]
    exact ⟨rfl, rfl⟩
  · intro payload hok hdown hincl
    have hsvc : SensorService.createSensorReading parse env db payload =
        .error (.connectionFailure env.connErrMsg) := by
      unfold SensorService.createSensorReading findOne
      rw [hdown]
      rfl
    have hctrl : SensorController.createSensorData
        (.error (.connectionFailure env.connErrMsg)) = .dbConnectionFailed := by
      unfold SensorController.createSensorData
      simp [DBError.message, hincl]
    have hpost : postSensorData parse env db b =
        ⟨db, .fromController (SensorController.createSensorData
          (.error (.connectionFailure env.connErrMsg))), true⟩ := by
      simp only [postSensorData, hok, hsvc]
    rw [hpost, hctrl]
    exact ⟨rfl, rfl, rfl, (by decide : (503 : Nat) ≠ 400), (by decide : (503 : Nat) ≠ 500)⟩

/-- Closed instance of `sensor_failure_kinds_distinguishable`: the 400
branch at `timestamp:"not-a-date"`, and the 503 branch for a valid body
against an unreachable database raising `connect ECONNREFUSED`. -/
theorem sensor_failure_kinds_distinguishable_witness :
    (postSensorData exampleParse exampleEnv emptySensorStore exampleBadTimestampBody =
      ⟨emptySensorStore,
        .badRequest [⟨"timestamp", "timestamp must be a valid ISO8601 format"⟩], false⟩ ∧
      (postSensorData exampleParse exampleEnv emptySensorStore
        exampleBadTimestampBody).response.statusCode = 400) ∧
    ((postSensorData exampleParse exampleDownEnv emptySensorStore
        exampleGoodBody).response = .fromController .dbConnectionFailed ∧
      (postSensorData exampleParse exampleDownEnv emptySensorStore
        exampleGoodBody).response.statusCode = 503 ∧
      (postSensorData exampleParse exampleDownEnv emptySensorStore
        exampleGoodBody).store = emptySensorStore ∧
      (postSensorData exampleParse exampleDownEnv emptySensorStore
        exampleGoodBody).response.statusCode ≠ 400 ∧
      (postSensorData exampleParse exampleDownEnv emptySensorStore
        exampleGoodBody).response.statusCode ≠ 500) :=
  ⟨(sensor_failure_kinds_distinguishable exampleParse exampleEnv emptySensorStore
      exampleBadTimestampBody).1
      [⟨"timestamp", "timestamp must be a valid ISO8601 format"⟩] rfl,
   (sensor_failure_kinds_distinguishable exampleParse exampleDownEnv emptySensorStore
      exampleGoodBody).2 examplePayload rfl rfl (by decide)⟩

end Greenhouse
